import Mathlib

set_option maxRecDepth 100000

/-!
Verification development for the devfolio-support-bot repository.

This file shallowly embeds the retrieval/confidence pipeline of the
repository: the `query_rag_system` functions of `telegram_bot_rag.py` and
`discord_bot_rag.py`, and the helpers `generate_multiple_queries` /
`retrieve_for_queries` of `multi_query_rag.py`, together with the source
citation mapping shared with `query_docs.py`.

External collaborators (the Chroma document store and the OpenAI chat
model) are modelled as oracles collected in an `Env` structure; a raised
Python exception is modelled as an `Except.error` value returned by the
oracle.  Relevance scores are modelled as rationals.  Python strings are
Lean strings (sequences of characters), and the Python string methods the
code uses (`replace`, `strip`, `split`, `title`, ...) are embedded as
executable structurally-recursive Lean functions below, so that every
definition evaluates by kernel reduction.
-/

/-- A documentation chunk: `page_content` is the chunk text, `source` is
the `"source"` entry of the chunk metadata (`""` when absent, matching
`doc.metadata.get("source", "")`). -/
structure Doc where
  page_content : String
  source : String
deriving DecidableEq

/-- The external collaborators of one pipeline run.  `search` is
`db.similarity_search_with_relevance_scores(query, k)`; the three model
oracles are the `model.invoke(prompt).content` calls for query
generation, confidence evaluation (arguments: question, context) and
final answer generation (arguments: context, question).  An
`Except.error` value models a raised exception. -/
structure Env where
  search : String → Nat → Except String (List (Doc × Rat))
  genQueries : String → Except String String
  confEval : String → String → Except String String
  genAnswer : String → String → Except String String

/-- Result of one pipeline run: the returned string, the list of scored
chunks used to build the final context and the source citations (empty
on every escalation / error branch), and the number of language-model
invocations that were attempted. -/
structure RagResult where
  answer : String
  retained : List (Doc × Rat)
  lmCalls : Nat
deriving DecidableEq

/-! ### Embedded Python string primitives -/

/-- Python `s.strip()` on character lists: drop leading and trailing
whitespace. -/
def trimL (l : List Char) : List Char :=
  ((l.dropWhile Char.isWhitespace).reverse.dropWhile Char.isWhitespace).reverse

/-- Python `s.strip()`. -/
def trimS (s : String) : String :=
  String.mk (trimL s.data)

/-- Python `s.upper()` (ASCII letters, which is all the code compares). -/
def upperS (s : String) : String :=
  String.mk (s.data.map Char.toUpper)

/-- Fuel-driven worker for Python `s.replace(pat, repl)`: replace every
leftmost non-overlapping occurrence of `pat`, scanning left to right and
skipping over each replacement.  Each step consumes at least one input
character, so fuel `= length` suffices; the fuel-exhausted branch is
never reached on such calls. -/
def replaceAllGo (pat repl : List Char) : Nat → List Char → List Char
  | _, [] => []
  | 0, l => l
  | fuel + 1, c :: rest =>
    if pat.isPrefixOf (c :: rest) then
      repl ++ replaceAllGo pat repl fuel (rest.drop (pat.length - 1))
    else
      c :: replaceAllGo pat repl fuel rest

/-- Python `s.replace(pat, repl)` (the repository never calls it with an
empty pattern). -/
def pyReplace (s pat repl : String) : String :=
  String.mk (replaceAllGo pat.data repl.data s.data.length s.data)

/-- Whether `pat` occurs as a contiguous sublist of `l`. -/
def occursIn (pat : List Char) : List Char → Bool
  | [] => pat.isPrefixOf ([] : List Char)
  | c :: rest => pat.isPrefixOf (c :: rest) || occursIn pat rest

/-- Python `pat in s` (substring test). -/
def containsStr (s pat : String) : Bool :=
  occursIn pat.data s.data

/-- Python `s.startswith(pre)`. -/
def startsWithS (s pre : String) : Bool :=
  pre.data.isPrefixOf s.data

/-- One step of Python `s.title()`: the boolean records whether the
previous character was alphabetic (cased). -/
def pyTitleGo : Bool → List Char → List Char
  | _, [] => []
  | prevAlpha, c :: rest =>
    (if prevAlpha then c.toLower else c.toUpper) :: pyTitleGo c.isAlpha rest

/-- Python `s.title()`: uppercase every character following a non-cased
character, lowercase the others. -/
def pyTitle (s : String) : String :=
  String.mk (pyTitleGo false s.data)

/-- Characters after the last `'/'` (all of `l` when there is none). -/
def lastSegL (l : List Char) : List Char :=
  l.foldl (fun acc c => if c = '/' then [] else acc ++ [c]) []

/-- Python `path.split("/")[-1]`. -/
def lastSegment (s : String) : String :=
  String.mk (lastSegL s.data)

/-- Characters after the first `'.'`. -/
def afterFirstDot : List Char → List Char
  | [] => []
  | c :: rest => if c = '.' then rest else afterFirstDot rest

/-- Python `line.split('.', 1)[-1]` on character lists: everything after
the first dot, or the whole list when there is no dot. -/
def splitDotOnceL (l : List Char) : List Char :=
  if l.contains '.' then afterFirstDot l else l

/-- Split a character list at every occurrence of the separator
character (Python `s.split('\n')`). -/
def splitCharGo (sep : Char) : List Char → List Char → List (List Char)
  | acc, [] => [acc.reverse]
  | acc, c :: rest =>
    if c = sep then acc.reverse :: splitCharGo sep [] rest
    else splitCharGo sep (c :: acc) rest

/-- Python `s.split('\n')`. -/
def splitLines (s : String) : List String :=
  (splitCharGo '\n' [] s.data).map String.mk

/-- Python `sep.join(l)`. -/
def joinWith (sep : String) (l : List String) : String :=
  String.mk (List.intercalate sep.data (l.map String.data))

/-- Python `list(dict.fromkeys(l))` worker. -/
def dedupGo (seen : List String) : List String → List String
  | [] => []
  | s :: rest =>
    if s ∈ seen then dedupGo seen rest else s :: dedupGo (s :: seen) rest

/-- Order-preserving deduplication, `list(dict.fromkeys(l))`: drop later
duplicates, keeping the first occurrence of each element. -/
def dedupKeepFirst (l : List String) : List String :=
  dedupGo [] l

/-! ### Query-expansion response parsing

All three pipeline files parse the model's numbered-list response with
the same per-line logic; the two bots additionally stop after 3 parsed
queries. -/

/-- Per-line parsing shared by the three files: accept a (stripped) line
only when it is non-empty and begins with a digit, `•` or `-`; then take
everything after the first `.`, strip it, strip leading `•`/`-`
characters, strip again, and keep the result only when it is non-empty
and longer than 3 characters.  `parsedQuery` is the
strip/split/strip pipeline applied to an accepted line. -/
def parsedQuery (l : List Char) : List Char :=
  trimL ((trimL (splitDotOnceL l)).dropWhile (fun ch => ch == '•' || ch == '-'))

/-- See `parsedQuery`: the accepted-line branch of the per-line parse. -/
def parseLine (line : String) : Option String :=
  match trimL line.data with
  | [] => none
  | c :: cs =>
    if c.isDigit ∨ c = '•' ∨ c = '-' then
      if parsedQuery (c :: cs) ≠ [] ∧ 3 < (parsedQuery (c :: cs)).length then
        some (String.mk (parsedQuery (c :: cs)))
      else none
    else none

/-- Bot-side parsing of the query-generation response
(`telegram_bot_rag.py` lines 141–151, `discord_bot_rag.py` lines
153–163): parse each line of the stripped response, stopping once 3
queries were collected. -/
def parse_queries (response : String) : List String :=
  ((splitLines (trimS response)).filterMap parseLine).take 3

/-- Bot-side query expansion (`telegram_bot_rag.py` lines 134–155,
`discord_bot_rag.py` lines 146–167), given the model's response text:
parse up to 3 variants, then insert the original query at the front
when it is not already among them. -/
def generate_queries (query_text response : String) : List String :=
  let queries := parse_queries response
  if query_text ∈ queries then queries else query_text :: queries

/-- `multi_query_rag.py` line-parsing (lines 85–95): same per-line
logic, but with no cap on the number of parsed queries. -/
def mq_parse_queries (response : String) : List String :=
  (splitLines (trimS response)).filterMap parseLine

namespace MultiQuery

/-- `multi_query_rag.generate_multiple_queries` (lines 76–110): invoke
the model; on any exception fall back to the original query alone; on
success parse the numbered list and insert the original query at the
front when it is not already present. -/
def generate_multiple_queries (original_query : String)
    (resp : Except String String) : List String :=
  match resp with
  | Except.error _ => [original_query]
  | Except.ok response =>
    let queries := mq_parse_queries response
    if original_query ∈ queries then queries else original_query :: queries

end MultiQuery

/-! ### Merge-time deduplication and sorting -/

/-- Python `doc.page_content[:100]`, the dedup key (modelling
`hash(doc.page_content[:100])`: two chunks collide exactly when their
first 100 characters agree). -/
def take100 (s : String) : String :=
  String.mk (s.data.take 100)

/-- The merge floor `0.4` shared by the three retrieval loops. -/
def merge_floor : Rat := mkRat 4 10

/-- The merge/dedup loop shared by `telegram_bot_rag.py` (lines
157–167), `discord_bot_rag.py` (lines 169–179) and `multi_query_rag.py`
(lines 126–133), on the concatenated per-query search results in
encounter order: keep a result only when its 100-character content
prefix is unseen and its score exceeds `0.4`, recording the prefix as
seen exactly when the result is kept. -/
def mergeDedup (l : List (Doc × Rat)) (seen : List String) : List (Doc × Rat) :=
  match l with
  | [] => []
  | (d, s) :: rest =>
    if take100 d.page_content ∉ seen ∧ s > merge_floor then
      (d, s) :: mergeDedup rest (take100 d.page_content :: seen)
    else
      mergeDedup rest seen

/-- Run `db.similarity_search_with_relevance_scores` for each query in
order, concatenating the result lists; the first raised exception
aborts the whole loop (it is caught by the caller's top-level handler). -/
def searchAll (search : String → Nat → Except String (List (Doc × Rat)))
    (k : Nat) : List String → Except String (List (Doc × Rat))
  | [] => Except.ok []
  | q :: qs =>
    match search q k with
    | Except.error e => Except.error e
    | Except.ok r =>
      match searchAll search k qs with
      | Except.error e => Except.error e
      | Except.ok rest => Except.ok (r ++ rest)

/-- Stable descending insertion: place `x` before the first element whose
score is `≤` the score of `x`, so equal scores keep their original
order. -/
def insertDesc (x : Doc × Rat) : List (Doc × Rat) → List (Doc × Rat)
  | [] => [x]
  | y :: rest => if y.2 ≤ x.2 then x :: y :: rest else y :: insertDesc x rest

/-- Python `all_results.sort(key=lambda x: x[1], reverse=True)`: the
stable descending-by-score sort (Python's sort is stable, and a stable
sort under a fixed comparison is unique, so insertion sort is the same
function). -/
def sortScores (l : List (Doc × Rat)) : List (Doc × Rat) :=
  l.foldr insertDesc []


/-! ### Shared confidence evaluation and source citations -/

/-- `evaluate_confidence` (`telegram_bot_rag.py` lines 95–107,
`discord_bot_rag.py` lines 109–121), as a function of the model oracle's
response: on any exception return `"LOW"`; otherwise strip and uppercase
the response and return it when it is exactly `HIGH`, `MEDIUM` or `LOW`,
else `"LOW"`. -/
def evaluate_confidence (resp : Except String String) : String :=
  match resp with
  | Except.error _ => "LOW"
  | Except.ok content =>
    let c := upperS (trimS content)
    if c = "HIGH" ∨ c = "MEDIUM" ∨ c = "LOW" then c else "LOW"

/-- The documentation base URL shared by all four files. -/
def base_url : String := "https://guide.devfolio.co/"

/-- The citation URL computed by `telegram_bot_rag.py` lines 226–229
(identically in `discord_bot_rag.py`, `multi_query_rag.py` and
`query_docs.py`): `base_url + source_path.replace("data/", "")
.replace(".mdx", "").replace(".md", "")`. -/
def source_url (source_path : String) : String :=
  base_url ++ pyReplace (pyReplace (pyReplace source_path ("data/") (""))
    (".mdx") ("")) (".md") ("")

/-- The citation title computed by `telegram_bot_rag.py` lines 230–231:
the last `/`-segment of the path with `.mdx`/`.md` occurrences removed,
hyphens replaced by spaces, title-cased. -/
def readable_title (source_path : String) : String :=
  pyTitle (pyReplace (pyReplace (pyReplace (lastSegment source_path)
    (".mdx") ("")) (".md") ("")) ("-") (" "))

/-- One rendered source line (`telegram_bot_rag.py` lines 225–232):
`none` when the chunk has no `source` metadata. -/
def source_entry (d : Doc) : Option String :=
  if d.source ≠ "" then
    some ("• [" ++ readable_title d.source ++ "](" ++ source_url d.source ++ ")")
  else none

/-- The good-result floor `0.5` of the two bot pipelines. -/
def good_floor : Rat := mkRat 5 10

/-- The high-confidence probe threshold `0.65` of the two bot
pipelines. -/
def high_confidence_threshold : Rat := mkRat 65 100

namespace Telegram

/-- `telegram_bot_rag.ORGANIZER_USERNAME`. -/
def ORGANIZER_USERNAME : String := "@vee19tel"

/-- `telegram_bot_rag.MIN_CONTEXT_LENGTH`. -/
def MIN_CONTEXT_LENGTH : Nat := 100

/-- Escalation message of the initial-probe short-circuit
(`telegram_bot_rag.py` lines 126–132). -/
def no_match_msg (is_private : Bool) : String :=
  if is_private then
    "🤔 I couldn't find relevant information for your question in the documentation.\n\n💡 For better support, consider asking in our public groups where community members and organizers can help with more context! \n\n In the meantime, You can refer to this guide: https://guide.devfolio.co/"
  else
    "🤔 I couldn't find relevant information for your question in the documentation.\n\n" ++ ORGANIZER_USERNAME ++ " Could you help with this question? \n\n In the meantime, Please refer to this guide: https://guide.devfolio.co/"

/-- Escalation message when no result passes the good-result floor
(`telegram_bot_rag.py` lines 173–178). -/
def no_good_msg (is_private : Bool) : String :=
  if is_private then
    "🤔 I couldn't find good matches for your question in the documentation.\n\n💡 Try asking in our public groups for better assistance! \n\n In the meantime, Please refer to this guide: https://guide.devfolio.co/"
  else
    "🤔 I couldn't find good matches for your question in the documentation. \n\n" ++ ORGANIZER_USERNAME ++ " Could you help with this question? \n\n In the meantime, Please refer to this guide: https://guide.devfolio.co/."

/-- Escalation message of the minimum-context-length check
(`telegram_bot_rag.py` lines 185–190). -/
def limited_msg (is_private : Bool) : String :=
  if is_private then
    "🤔 I found limited information for your question.\n\n💡 For more detailed help, consider asking in our public groups!\n\nIn the meantime, Please refer to this guide: https://guide.devfolio.co/"
  else
    "🤔 I found limited information for your question.\n\n" ++ ORGANIZER_USERNAME ++ " This might need human expertise! \n\nIn the meantime, Please refer to this guide: https://guide.devfolio.co/"

/-- Escalation message of the LOW-confidence short-circuit
(`telegram_bot_rag.py` lines 196–201). -/
def low_conf_msg (is_private : Bool) : String :=
  if is_private then
    "🤔 I found some information but I'm not confident enough to provide an accurate answer.\n\n💡 For better assistance, try asking this question in our public groups!\n\nIn the meantime, Please refer to this guide: https://guide.devfolio.co/"
  else
    "🤔 I found some information but I'm not confident about the answer.\n\n" ++ ORGANIZER_USERNAME ++ " Could you help with this question? \n\nIn the meantime, Please refer to this guide: https://guide.devfolio.co/"

/-- Escalation message of the `UNCERTAIN` sentinel check
(`telegram_bot_rag.py` lines 209–214). -/
def uncertain_msg (is_private : Bool) : String :=
  if is_private then
    "🤔 I don't have enough specific information to answer your question confidently.\n\n💡 For better assistance, consider asking in our public groups!\n\nIn the meantime, Please refer to this guide: https://guide.devfolio.co/"
  else
    "🤔 I don't have enough specific information to answer your question confidently.\n\n" ++ ORGANIZER_USERNAME ++ " Could you help with one?\n\nIn the meantime, Please refer to this guide: https://guide.devfolio.co/"

/-- Generic error message of the top-level exception handler
(`telegram_bot_rag.py` lines 248–254). -/
def error_msg (is_private : Bool) : String :=
  if is_private then
    "❌ Sorry, I encountered an error while processing your question.\n\nPlease try again later or ask in our public groups for assistance!"
  else
    "❌ Sorry, I encountered an error while processing your question.\n\n" ++ ORGANIZER_USERNAME ++ " Could you help with this technical issue?"

/-- The partial-answer banner (`telegram_bot_rag.py` line 220). -/
def partial_banner : String :=
  "⚠️ *Partial answer* (some details might be missing):\n\n"

/-- The MEDIUM-confidence indicator appended to successful answers
(`telegram_bot_rag.py` lines 239–244). -/
def medium_indicator (is_private : Bool) : String :=
  if is_private then
    "\n\n💡 Need more specific details? Try asking in our public groups!"
  else
    "\n\n💡 *Need more specific details?* Ask " ++ ORGANIZER_USERNAME ++ " \n\n In the meantime, Please refer to this guide: https://guide.devfolio.co/"

/-- Sort, filter by the good-result floor (`telegram_bot_rag.py` lines
169–171), applied to the merged/deduplicated results. -/
def good_results (flat : List (Doc × Rat)) : List (Doc × Rat) :=
  (sortScores (mergeDedup flat [])).filter (fun r => decide (r.2 > good_floor))

/-- Context assembly (`telegram_bot_rag.py` line 182). -/
def context_text (results : List (Doc × Rat)) : String :=
  joinWith ("\n\n---\n\n") (results.map (fun r => r.1.page_content))

/-- Source list rendering (`telegram_bot_rag.py` lines 222–236):
per-chunk entries, order-preserving dedup, capped at 8, newline-joined. -/
def sources_text (results : List (Doc × Rat)) : String :=
  joinWith ("\n") ((dedupKeepFirst (results.filterMap
    (fun r => source_entry r.1))).take 8)

/-- Final message assembly after answer generation
(`telegram_bot_rag.py` lines 209–246): `UNCERTAIN` sentinel check,
`PARTIAL:` prefix handling (banner only under MEDIUM confidence),
sources block, MEDIUM-confidence indicator. -/
def compose (is_private : Bool) (confidence_level response_text : String)
    (results : List (Doc × Rat)) : String :=
  if containsStr response_text ("UNCERTAIN") then uncertain_msg is_private
  else
    let stripped := if startsWithS response_text ("PARTIAL:") then
        trimS (pyReplace response_text ("PARTIAL:") ("")) else response_text
    let banner := if startsWithS response_text ("PARTIAL:") ∧ confidence_level = "MEDIUM"
      then partial_banner else ""
    let indicator := if confidence_level = "MEDIUM" then medium_indicator is_private
      else ""
    banner ++ stripped ++ ("\n\n**📚 Refer these helpful docs for more details**:\n")
      ++ sources_text results ++ indicator

/-- `telegram_bot_rag.query_rag_system` (lines 109–254): the full
pipeline, with every external failure modelled as `Except.error` and
routed exactly as the code's `try`/`except` structure routes it.
`lmCalls` counts attempted model invocations, `retained` is the
`results` list used for context and citations. -/
def query_rag_system (env : Env) (query_text : String) (is_private : Bool) :
    RagResult :=
  match env.search query_text 6 with
  | Except.error _ => ⟨error_msg is_private, [], 0⟩
  | Except.ok initial_results =>
    if initial_results.any (fun r => decide (r.2 > high_confidence_threshold)) then
      match env.genQueries query_text with
      | Except.error _ => ⟨error_msg is_private, [], 1⟩
      | Except.ok response =>
        match searchAll env.search 4 (generate_queries query_text response) with
        | Except.error _ => ⟨error_msg is_private, [], 1⟩
        | Except.ok flat =>
          if (good_results flat).isEmpty then ⟨no_good_msg is_private, [], 1⟩
          else if (context_text ((good_results flat).take 8)).length
              < MIN_CONTEXT_LENGTH then
            ⟨limited_msg is_private, [], 1⟩
          else if evaluate_confidence (env.confEval query_text
              (context_text ((good_results flat).take 8))) = "LOW" then
            ⟨low_conf_msg is_private, [], 2⟩
          else
            match env.genAnswer (context_text ((good_results flat).take 8))
                query_text with
            | Except.error _ => ⟨error_msg is_private, [], 3⟩
            | Except.ok response_text =>
              ⟨compose is_private
                (evaluate_confidence (env.confEval query_text
                  (context_text ((good_results flat).take 8))))
                response_text ((good_results flat).take 8),
                (good_results flat).take 8, 3⟩
    else ⟨no_match_msg is_private, [], 0⟩

end Telegram

namespace Discord

/-- `discord_bot_rag.ORGANIZER_USERNAME` (a Discord mention). -/
def ORGANIZER_USERNAME : String := "<@845015423207473152>"

/-- `discord_bot_rag.MIN_CONTEXT_LENGTH`. -/
def MIN_CONTEXT_LENGTH : Nat := 200

/-- Escalation message of the initial-probe short-circuit
(`discord_bot_rag.py` line 144). -/
def no_match_msg : String :=
  "🤔 I couldn't find relevant information for your question in the documentation.\n\n" ++ ORGANIZER_USERNAME ++ " Could you help with this question?"

/-- Escalation message when no result passes the good-result floor
(`discord_bot_rag.py` line 186). -/
def no_good_msg : String :=
  "🤔 I couldn't find good matches for your question in the documentation.\n\n" ++ ORGANIZER_USERNAME ++ " Could you help with this question?"

/-- Escalation message of the minimum-context-length check
(`discord_bot_rag.py` line 196). -/
def limited_msg : String :=
  "🤔 I found limited information for your question.\n\n" ++ ORGANIZER_USERNAME ++ " This might need human expertise!"

/-- Escalation message of the LOW-confidence short-circuit
(`discord_bot_rag.py` line 204); it embeds the user's question. -/
def low_conf_msg (query_text : String) : String :=
  "🤔 I found some information but I'm not confident about the answer to avoid giving incorrect details.\n\n" ++ ORGANIZER_USERNAME ++ " Could you help with this question: '" ++ query_text ++ "'?"

/-- Escalation message of the `UNCERTAIN` sentinel check
(`discord_bot_rag.py` line 217); it embeds the user's question. -/
def uncertain_msg (query_text : String) : String :=
  "🤔 I don't have enough specific information to answer your question confidently.\n\n" ++ ORGANIZER_USERNAME ++ " Could you help with: '" ++ query_text ++ "'?"

/-- Generic error message of the top-level exception handler
(`discord_bot_rag.py` lines 252–254). -/
def error_msg : String :=
  "❌ Sorry, I encountered an error while processing your question.\n\n" ++ ORGANIZER_USERNAME ++ " Could you help with this technical issue?"

/-- The partial-answer banner (`discord_bot_rag.py` line 224). -/
def partial_banner : String :=
  "⚠️ **Partial answer** (some details might be missing):\n\n"

/-- The MEDIUM-confidence indicator (`discord_bot_rag.py` lines
244–246). -/
def medium_indicator : String :=
  "\n\n💡 **Need more specific details?** Ask " ++ ORGANIZER_USERNAME

/-- Sort, filter by the good-result floor (`discord_bot_rag.py` lines
181–183). -/
def good_results (flat : List (Doc × Rat)) : List (Doc × Rat) :=
  (sortScores (mergeDedup flat [])).filter (fun r => decide (r.2 > good_floor))

/-- Context assembly (`discord_bot_rag.py` line 192). -/
def context_text (results : List (Doc × Rat)) : String :=
  joinWith ("\n\n---\n\n") (results.map (fun r => r.1.page_content))

/-- Source list rendering (`discord_bot_rag.py` lines 226–241): capped
at 3 sources. -/
def sources_text (results : List (Doc × Rat)) : String :=
  joinWith ("\n") ((dedupKeepFirst (results.filterMap
    (fun r => source_entry r.1))).take 3)

/-- Final message assembly after answer generation
(`discord_bot_rag.py` lines 215–250). -/
def compose (use_docs : Bool) (query_text confidence_level response_text : String)
    (results : List (Doc × Rat)) : String :=
  if containsStr response_text ("UNCERTAIN") then uncertain_msg query_text
  else
    let stripped := if startsWithS response_text ("PARTIAL:") then
        trimS (pyReplace response_text ("PARTIAL:") ("")) else response_text
    let banner := if startsWithS response_text ("PARTIAL:") ∧ confidence_level = "MEDIUM"
      then partial_banner else ""
    if use_docs then
      let indicator := if confidence_level = "MEDIUM" then medium_indicator else ""
      banner ++ stripped ++ ("\n\n**Refer documentation for more details**\n")
        ++ sources_text results ++ indicator
    else banner ++ stripped

/-- `discord_bot_rag.query_rag_system` (lines 123–254): probe with k=4,
per-query retrieval with k=3, top 4 good results, minimum context
length 200. -/
def query_rag_system (env : Env) (query_text : String) (use_docs : Bool) :
    RagResult :=
  match env.search query_text 4 with
  | Except.error _ => ⟨error_msg, [], 0⟩
  | Except.ok initial_results =>
    if initial_results.any (fun r => decide (r.2 > high_confidence_threshold)) then
      match env.genQueries query_text with
      | Except.error _ => ⟨error_msg, [], 1⟩
      | Except.ok response =>
        match searchAll env.search 3 (generate_queries query_text response) with
        | Except.error _ => ⟨error_msg, [], 1⟩
        | Except.ok flat =>
          if (good_results flat).isEmpty then ⟨no_good_msg, [], 1⟩
          else if (context_text ((good_results flat).take 4)).length
              < MIN_CONTEXT_LENGTH then
            ⟨limited_msg, [], 1⟩
          else if evaluate_confidence (env.confEval query_text
              (context_text ((good_results flat).take 4))) = "LOW" then
            ⟨low_conf_msg query_text, [], 2⟩
          else
            match env.genAnswer (context_text ((good_results flat).take 4))
                query_text with
            | Except.error _ => ⟨error_msg, [], 3⟩
            | Except.ok response_text =>
              ⟨compose use_docs query_text
                (evaluate_confidence (env.confEval query_text
                  (context_text ((good_results flat).take 4))))
                response_text ((good_results flat).take 4),
                (good_results flat).take 4, 3⟩
    else ⟨no_match_msg, [], 0⟩

end Discord

namespace MultiQuery

/-- The merge/dedup loop of `multi_query_rag.retrieve_for_queries`
(lines 126–133), on (chunk, score, originating query) triples. -/
def mergeDedupQ (l : List (Doc × Rat × String)) (seen : List String) :
    List (Doc × Rat × String) :=
  match l with
  | [] => []
  | (d, s, q) :: rest =>
    if take100 d.page_content ∉ seen ∧ s > merge_floor then
      (d, s, q) :: mergeDedupQ rest (take100 d.page_content :: seen)
    else
      mergeDedupQ rest seen

/-- Per-query retrieval of `retrieve_for_queries`: search each query in
order and tag each result with the query that found it; an exception
from the store aborts the loop (there is no handler in this file). -/
def searchAllQ (search : String → Nat → Except String (List (Doc × Rat)))
    (k : Nat) : List String → Except String (List (Doc × Rat × String))
  | [] => Except.ok []
  | q :: qs =>
    match search q k with
    | Except.error e => Except.error e
    | Except.ok r =>
      match searchAllQ search k qs with
      | Except.error e => Except.error e
      | Except.ok rest => Except.ok (r.map (fun p => (p.1, p.2, q)) ++ rest)

/-- Stable descending insertion on triples (key: the score). -/
def insertDescQ (x : Doc × Rat × String) :
    List (Doc × Rat × String) → List (Doc × Rat × String)
  | [] => [x]
  | y :: rest => if y.2.1 ≤ x.2.1 then x :: y :: rest else y :: insertDescQ x rest

/-- Python `all_results.sort(key=lambda x: x[1], reverse=True)` on
triples. -/
def sortScoresQ (l : List (Doc × Rat × String)) : List (Doc × Rat × String) :=
  l.foldr insertDescQ []

/-- `multi_query_rag.retrieve_for_queries` (lines 112–143): retrieve for
each query, dedup by 100-character content prefix with the `0.4` merge
floor, sort by score descending.  There is no further score filter. -/
def retrieve_for_queries (search : String → Nat → Except String (List (Doc × Rat)))
    (queries : List String) (k_per_query : Nat) :
    Except String (List (Doc × Rat × String)) :=
  match searchAllQ search k_per_query queries with
  | Except.error e => Except.error e
  | Except.ok flat => Except.ok (sortScoresQ (mergeDedupQ flat []))

/-- `multi_query_rag.main` steps 1–2 and the truncation of step 3
(lines 166–187): generate queries (with the single-query fallback),
retrieve, and keep the first `max_docs` results for the context. -/
def limited_results (env : Env) (query_text : String) (max_docs k_per_query : Nat) :
    Except String (List (Doc × Rat × String)) :=
  let queries := generate_multiple_queries query_text (env.genQueries query_text)
  match retrieve_for_queries env.search queries k_per_query with
  | Except.error e => Except.error e
  | Except.ok all => Except.ok (all.take max_docs)

/-- `multi_query_rag.main` step 4 context assembly (line 198): the
final-response context is built from *all* of `limited_results`. -/
def main_context_text (env : Env) (query_text : String)
    (max_docs k_per_query : Nat) : Except String String :=
  match limited_results env query_text max_docs k_per_query with
  | Except.error e => Except.error e
  | Except.ok lim =>
    Except.ok (joinWith ("\n\n---\n\n") (lim.map (fun r => r.1.page_content)))

end MultiQuery

/-! ### Spec-side citation mapping

The specification describes the citation URL as a strip-prefix /
strip-suffix composition; the following definitions follow the spec's
words (for comparison with `source_url` / `readable_title`, which follow
the code's `replace`-all calls). -/

/-- From the spec's words: `strip_prefix(pre)` — remove `pre` when it is
a leading prefix, else leave the string unchanged. -/
def stripPreS (pre s : String) : String :=
  if pre.data.isPrefixOf s.data then String.mk (s.data.drop pre.data.length) else s

/-- From the spec's words: `strip_suffix(suf)` — remove `suf` when it is
a trailing suffix, else leave the string unchanged. -/
def stripSufS (suf s : String) : String :=
  if suf.data.isSuffixOf s.data then
    String.mk (s.data.take (s.data.length - suf.data.length))
  else s

/-- From the spec's words (§8): the citation URL as
`strip_prefix("data/") ∘ strip_suffix(".md"/".mdx")` composed with the
fixed base URL. -/
def spec_source_url (source_path : String) : String :=
  base_url ++ stripSufS (".md") (stripSufS (".mdx") (stripPreS ("data/") source_path))

/-- From the spec's words (§4.4): the citation title as the file name
(extension-stripped basename) with hyphens replaced by spaces,
title-cased. -/
def spec_readable_title (source_path : String) : String :=
  pyTitle (pyReplace (stripSufS (".md") (stripSufS (".mdx") (lastSegment source_path)))
    ("-") (" "))

/-! ### Concrete documents and oracle environments

Used below to instantiate the theorems on closed inputs. -/

/-- A documentation chunk whose content is longer than both minimum
context lengths (100 and 200). -/
def docLong : Doc :=
  ⟨"To add judges to your hackathon open the organizer dashboard, select the judging tab, press the invite button, and enter the email address of every judge you want to invite to the event before the judging deadline.", "data/how-to-apply.md"⟩

/-- A chunk whose content is shorter than both minimum context
lengths. -/
def docShort : Doc :=
  ⟨"short", "data/faq.md"⟩

/-- Two distinct chunks (different sources) agreeing on their full
content, hence on their first 100 characters. -/
def dupA : Doc :=
  ⟨"duplicate chunk content", "data/a.md"⟩

/-- See `dupA`. -/
def dupB : Doc :=
  ⟨"duplicate chunk content", "data/b.md"⟩

/-- Store probe finds only a sub-threshold (0.6) match; every model
oracle raises. -/
def envLow : Env :=
  ⟨fun _ _ => Except.ok [(docShort, mkRat 6 10)],
   fun _ => Except.error ("model unreachable"),
   fun _ _ => Except.error ("model unreachable"),
   fun _ _ => Except.error ("model unreachable")⟩

/-- Store returns a single very short chunk with score 0.95; all model
calls succeed. -/
def envShort : Env :=
  ⟨fun _ _ => Except.ok [(docShort, mkRat 19 20)],
   fun _ => Except.ok ("1. judging criteria list"),
   fun _ _ => Except.ok ("HIGH"),
   fun _ _ => Except.ok ("Answer.")⟩

/-- Store returns a single long chunk with score 0.7; the final answer
begins with the `PARTIAL:` prefix and confidence is HIGH. -/
def envFull : Env :=
  ⟨fun _ _ => Except.ok [(docLong, mkRat 7 10)],
   fun _ => Except.ok ("1. judging criteria list"),
   fun _ _ => Except.ok ("HIGH"),
   fun _ _ => Except.ok ("PARTIAL: Open the judging tab.")⟩

/-- Like `envFull` but the confidence-evaluation model returns
unparseable output. -/
def envLowConf : Env :=
  ⟨fun _ _ => Except.ok [(docLong, mkRat 7 10)],
   fun _ => Except.ok ("1. judging criteria list"),
   fun _ _ => Except.ok ("banana"),
   fun _ _ => Except.ok ("Answer.")⟩

/-- Store probe succeeds with a high-confidence match but the
query-generation model raises. -/
def envExpErr : Env :=
  ⟨fun _ _ => Except.ok [(docLong, mkRat 7 10)],
   fun _ => Except.error ("model unreachable"),
   fun _ _ => Except.error ("model unreachable"),
   fun _ _ => Except.error ("model unreachable")⟩

/-- Store returns a single chunk scoring 0.45 (above the merge floor,
at or below the good-result floor); the query-generation model raises,
so `multi_query_rag` falls back to the original query. -/
def envMid : Env :=
  ⟨fun _ _ => Except.ok [(docLong, mkRat 45 100)],
   fun _ => Except.error ("model unreachable"),
   fun _ _ => Except.error ("model unreachable"),
   fun _ _ => Except.error ("model unreachable")⟩


/-! ### Helper lemmas -/

-- Sanity checks on the embedded primitives (mirroring quick Python
-- experiments; plain examples, not claim theorems).
example : pyReplace ("xdata/foo.md") ("data/") ("") = "xfoo.md" := by decide
example : pyTitle ("how-to apply") = "How-To Apply" := by decide
example : lastSegment ("data/judges/add.md") = "add.md" := by decide
example : parseLine ("2. How to add judges") = some ("How to add judges") := by decide
example : parseLine ("- ab") = none := by decide
example : parseLine ("no marker here") = none := by decide
example : generate_queries ("orig") ("1. aaaa\n2. bbbb\n3. cccc\n4. dddd")
    = ["orig", "aaaa", "bbbb", "cccc"] := by decide
example : containsStr ("well UNCERTAIN text") ("UNCERTAIN") = true := by decide
example : containsStr ("confident") ("UNCERTAIN") = false := by decide
example : dedupKeepFirst ["a", "b", "a", "c", "b"] = ["a", "b", "c"] := by decide
example : sortScores [(⟨"a", ""⟩, mkRat 1 2), (⟨"b", ""⟩, mkRat 9 10)]
    = [(⟨"b", ""⟩, mkRat 9 10), (⟨"a", ""⟩, mkRat 1 2)] := by decide
example : 200 < docLong.page_content.length := by decide
example : docShort.page_content.length < 100 := by decide

/-- A string of positive length is not empty. -/
theorem ne_empty_of_len_pos {s : String} (h : 0 < s.length) : s ≠ "" := by
  intro he
  subst he
  exact absurd h (by decide)

/-- The telegram final-answer assembly always contains the fixed sources
header, hence is never empty. -/
theorem telegram_compose_ne_empty (p : Bool) (conf resp : String)
    (results : List (Doc × Rat)) : Telegram.compose p conf resp results ≠ "" := by
  unfold Telegram.compose
  split
  · cases p <;> decide
  · apply ne_empty_of_len_pos
    simp only [String.length_append]
    have h : 0 < ("\n\n**📚 Refer these helpful docs for more details**:\n").length := by
      decide
    omega

/-- The discord final-answer assembly (documentation mode) always
contains the fixed sources header, hence is never empty. -/
theorem discord_uncertain_msg_ne_empty (q : String) :
    Discord.uncertain_msg q ≠ "" := by
  apply ne_empty_of_len_pos
  unfold Discord.uncertain_msg
  simp only [String.length_append]
  have h : 0 < ("'?").length := by decide
  omega

/-- The discord LOW-confidence escalation embeds the question but is
never empty. -/
theorem discord_low_conf_msg_ne_empty (q : String) :
    Discord.low_conf_msg q ≠ "" := by
  apply ne_empty_of_len_pos
  unfold Discord.low_conf_msg
  simp only [String.length_append]
  have h : 0 < ("'?").length := by decide
  omega

/-- The discord final-answer assembly (documentation mode) always
contains the fixed sources header or the uncertain escalation, hence is
never empty. -/
theorem discord_compose_true_ne_empty (q conf resp : String)
    (results : List (Doc × Rat)) : Discord.compose true q conf resp results ≠ "" := by
  unfold Discord.compose
  split
  · exact discord_uncertain_msg_ne_empty q
  · apply ne_empty_of_len_pos
    simp only [if_pos, String.length_append]
    have h : 0 < ("\n\n**Refer documentation for more details**\n").length := by decide
    omega

/-- C1: for every question string (and every behavior of the document
store and language model, including all-raising oracles), the pipeline
entry point `query_rag_system` returns a non-empty string and never
raises: every internal failure is an `Except.error` routed to a
user-visible message, and each branch of both bots returns a non-empty
string.  (The discord statement is at `use_docs = true`, the only value
its caller passes and the Python default.) -/
theorem rag_entry_total_nonempty :
    (∀ (env : Env) (q : String) (p : Bool),
      (Telegram.query_rag_system env q p).answer ≠ "")
    ∧ (∀ (env : Env) (q : String),
      (Discord.query_rag_system env q true).answer ≠ "") := by
  constructor
  · intro env q p
    unfold Telegram.query_rag_system
    split
    · cases p <;> decide
    · split
      · split
        · cases p <;> decide
        · split
          · cases p <;> decide
          · split
            · cases p <;> decide
            · split
              · cases p <;> decide
              · split
                · cases p <;> decide
                · split
                  · cases p <;> decide
                  · exact telegram_compose_ne_empty _ _ _ _
      · cases p <;> decide
  · intro env q
    unfold Discord.query_rag_system
    split
    · decide
    · split
      · split
        · decide
        · split
          · decide
          · split
            · decide
            · split
              · decide
              · split
                · exact discord_low_conf_msg_ne_empty q
                · split
                  · decide
                  · exact discord_compose_true_ne_empty _ _ _ _
      · decide

/-- C2: if the initial-confidence probe on the original query returns no
result with score strictly greater than 0.65, both bot pipelines return
the no-match escalation immediately with zero language-model
invocations (no expansion, no classification, no answer generation). -/
theorem probe_short_circuit_no_llm :
    (∀ (env : Env) (q : String) (p : Bool) (init : List (Doc × Rat)),
      env.search q 6 = Except.ok init →
      (∀ r ∈ init, r.2 ≤ high_confidence_threshold) →
      Telegram.query_rag_system env q p = ⟨Telegram.no_match_msg p, [], 0⟩)
    ∧ (∀ (env : Env) (q : String) (u : Bool) (init : List (Doc × Rat)),
      env.search q 4 = Except.ok init →
      (∀ r ∈ init, r.2 ≤ high_confidence_threshold) →
      Discord.query_rag_system env q u = ⟨Discord.no_match_msg, [], 0⟩) := by
  constructor
  · intro env q p init h1 h2
    have hany : init.any (fun r => decide (r.2 > high_confidence_threshold)) = false := by
      rw [List.any_eq_false]
      intro x hx
      simp only [decide_eq_true_eq, not_lt]
      exact h2 x hx
    unfold Telegram.query_rag_system
    rw [h1]
    simp [hany]
  · intro env q u init h1 h2
    have hany : init.any (fun r => decide (r.2 > high_confidence_threshold)) = false := by
      rw [List.any_eq_false]
      intro x hx
      simp only [decide_eq_true_eq, not_lt]
      exact h2 x hx
    unfold Discord.query_rag_system
    rw [h1]
    simp [hany]

/-- Witness for C2: a concrete environment whose probe scores top out at
0.6 makes both pipelines escalate with zero model calls. -/
theorem probe_short_circuit_no_llm_witness :
    Telegram.query_rag_system envLow ("q") true = ⟨Telegram.no_match_msg true, [], 0⟩
    ∧ Discord.query_rag_system envLow ("q") true = ⟨Discord.no_match_msg, [], 0⟩ :=
  ⟨probe_short_circuit_no_llm.1 envLow ("q") true [(docShort, mkRat 6 10)] rfl
    (by decide),
   probe_short_circuit_no_llm.2 envLow ("q") true [(docShort, mkRat 6 10)] rfl
    (by decide)⟩

/-- C6: whenever the retained context is shorter than the minimum context
length (100 in the telegram variant, 200 in the discord variant), the
pipeline escalates with the limited-information message regardless of the
individual scores, and neither confidence classification nor answer
generation is invoked (`lmCalls = 1`: only the expansion call happened). -/
theorem short_context_escalates :
    (∀ (env : Env) (q : String) (p : Bool) (init : List (Doc × Rat))
        (resp : String) (flat : List (Doc × Rat)),
      env.search q 6 = Except.ok init →
      init.any (fun r => decide (r.2 > high_confidence_threshold)) = true →
      env.genQueries q = Except.ok resp →
      searchAll env.search 4 (generate_queries q resp) = Except.ok flat →
      (Telegram.good_results flat).isEmpty = false →
      (Telegram.context_text ((Telegram.good_results flat).take 8)).length <
        Telegram.MIN_CONTEXT_LENGTH →
      Telegram.query_rag_system env q p = ⟨Telegram.limited_msg p, [], 1⟩)
    ∧ (∀ (env : Env) (q : String) (u : Bool) (init : List (Doc × Rat))
        (resp : String) (flat : List (Doc × Rat)),
      env.search q 4 = Except.ok init →
      init.any (fun r => decide (r.2 > high_confidence_threshold)) = true →
      env.genQueries q = Except.ok resp →
      searchAll env.search 3 (generate_queries q resp) = Except.ok flat →
      (Discord.good_results flat).isEmpty = false →
      (Discord.context_text ((Discord.good_results flat).take 4)).length <
        Discord.MIN_CONTEXT_LENGTH →
      Discord.query_rag_system env q u = ⟨Discord.limited_msg, [], 1⟩) := by
  constructor
  · intro env q p init resp flat h1 h2 h3 h4 h5 h6
    unfold Telegram.query_rag_system
    rw [h1]
    simp [h2, h3, h4, h5, h6]
  · intro env q u init resp flat h1 h2 h3 h4 h5 h6
    unfold Discord.query_rag_system
    rw [h1]
    simp [h2, h3, h4, h5, h6]

/-- Witness for C6: a single chunk scoring 0.95 whose content is 5
characters long escalates in both variants with one model call. -/
theorem short_context_escalates_witness :
    Telegram.query_rag_system envShort ("q") true = ⟨Telegram.limited_msg true, [], 1⟩
    ∧ Discord.query_rag_system envShort ("q") true = ⟨Discord.limited_msg, [], 1⟩ :=
  ⟨short_context_escalates.1 envShort ("q") true [(docShort, mkRat 19 20)]
    ("1. judging criteria list") [(docShort, mkRat 19 20), (docShort, mkRat 19 20)]
    rfl (by decide) rfl rfl (by decide) (by decide),
   short_context_escalates.2 envShort ("q") true [(docShort, mkRat 19 20)]
    ("1. judging criteria list") [(docShort, mkRat 19 20), (docShort, mkRat 19 20)]
    rfl (by decide) rfl rfl (by decide) (by decide)⟩

/-- C4: any exception during confidence classification yields `"LOW"`;
any model output whose stripped upper-cased text is not exactly
HIGH/MEDIUM/LOW yields `"LOW"` (never HIGH or MEDIUM, never an
exception); and a LOW classification makes the telegram pipeline return
the low-confidence escalation without invoking final answer generation
(`lmCalls = 2`: expansion and classification only). -/
theorem confidence_failure_maps_low :
    (∀ (e : String), evaluate_confidence (Except.error e) = "LOW")
    ∧ (∀ (c : String), upperS (trimS c) ≠ "HIGH" → upperS (trimS c) ≠ "MEDIUM" →
        upperS (trimS c) ≠ "LOW" → evaluate_confidence (Except.ok c) = "LOW")
    ∧ (∀ (env : Env) (q : String) (p : Bool) (init : List (Doc × Rat))
        (resp : String) (flat : List (Doc × Rat)),
      env.search q 6 = Except.ok init →
      init.any (fun r => decide (r.2 > high_confidence_threshold)) = true →
      env.genQueries q = Except.ok resp →
      searchAll env.search 4 (generate_queries q resp) = Except.ok flat →
      (Telegram.good_results flat).isEmpty = false →
      ¬ (Telegram.context_text ((Telegram.good_results flat).take 8)).length <
        Telegram.MIN_CONTEXT_LENGTH →
      evaluate_confidence (env.confEval q
        (Telegram.context_text ((Telegram.good_results flat).take 8))) = "LOW" →
      Telegram.query_rag_system env q p = ⟨Telegram.low_conf_msg p, [], 2⟩) := by
  refine ⟨fun e => rfl, ?_, ?_⟩
  · intro c hH hM hL
    unfold evaluate_confidence
    simp [hH, hM, hL]
  · intro env q p init resp flat h1 h2 h3 h4 h5 h6 h7
    unfold Telegram.query_rag_system
    rw [h1]
    simp [h2, h3, h4, h5, h6, h7]

/-- Witness for C4: a raising classifier and the unparseable output
`"banana"` both classify LOW, and a concrete run with that classifier
escalates after exactly two model calls. -/
theorem confidence_failure_maps_low_witness :
    evaluate_confidence (Except.error ("model unreachable")) = "LOW"
    ∧ evaluate_confidence (Except.ok ("banana")) = "LOW"
    ∧ Telegram.query_rag_system envLowConf ("q") true =
        ⟨Telegram.low_conf_msg true, [], 2⟩ :=
  ⟨confidence_failure_maps_low.1 ("model unreachable"),
   confidence_failure_maps_low.2.1 ("banana") (by decide) (by decide) (by decide),
   confidence_failure_maps_low.2.2 envLowConf ("q") true [(docLong, mkRat 7 10)]
    ("1. judging criteria list") [(docLong, mkRat 7 10), (docLong, mkRat 7 10)]
    rfl (by decide) rfl rfl (by decide) (by decide) (by decide)⟩

/-- C7 counterexample: with a high-confidence probe and a raising
query-generation model, the telegram pipeline returns the generic error
template with no retrieval attempt (`retained = []`), instead of
proceeding with only the original query. -/
theorem expansion_failure_error_counterexample :
    Telegram.query_rag_system envExpErr ("q") false =
      ⟨Telegram.error_msg false, [], 1⟩
    ∧ envExpErr.genQueries ("q") = Except.error ("model unreachable") :=
  ⟨rfl, rfl⟩

/-- C7 amended: in `multi_query_rag.generate_multiple_queries` a model
failure falls back to the original query alone (single-query mode, never
raising).  In the bot pipelines, however, expansion is inline and not
locally guarded: a model failure during expansion is caught only by the
top-level handler, producing the generic error template (still never
raising) rather than a single-query retrieval. -/
theorem expansion_failure_behavior :
    (∀ (orig e : String),
      MultiQuery.generate_multiple_queries orig (Except.error e) = [orig])
    ∧ (∀ (env : Env) (q : String) (p : Bool) (e : String)
        (init : List (Doc × Rat)),
      env.search q 6 = Except.ok init →
      init.any (fun r => decide (r.2 > high_confidence_threshold)) = true →
      env.genQueries q = Except.error e →
      Telegram.query_rag_system env q p = ⟨Telegram.error_msg p, [], 1⟩) := by
  refine ⟨fun orig e => rfl, ?_⟩
  intro env q p e init h1 h2 h3
  unfold Telegram.query_rag_system
  rw [h1]
  simp [h2, h3]

/-- Witness for the amended C7 at concrete inputs. -/
theorem expansion_failure_behavior_witness :
    MultiQuery.generate_multiple_queries ("how to add judges")
      (Except.error ("timeout")) = ["how to add judges"]
    ∧ Telegram.query_rag_system envExpErr ("q") true =
        ⟨Telegram.error_msg true, [], 1⟩ :=
  ⟨expansion_failure_behavior.1 ("how to add judges") ("timeout"),
   expansion_failure_behavior.2 envExpErr ("q") true ("model unreachable")
    [(docLong, mkRat 7 10)] rfl (by decide) rfl⟩

/-- C8 counterexample: the expander does not deduplicate generated
variants against each other and does not always put the original query
first (`"aaaa"` appears as the second variant, so it is not re-inserted,
and `"bbbb"` occurs twice); and the `multi_query_rag` variant applies no
cap, returning 6 queries. -/
theorem expander_duplicates_counterexample :
    generate_queries ("aaaa") ("1. bbbb\n2. aaaa\n3. bbbb")
      = ["bbbb", "aaaa", "bbbb"]
    ∧ ¬ (generate_queries ("aaaa") ("1. bbbb\n2. aaaa\n3. bbbb")).Nodup
    ∧ (generate_queries ("aaaa") ("1. bbbb\n2. aaaa\n3. bbbb")).head?
        ≠ some ("aaaa")
    ∧ (MultiQuery.generate_multiple_queries ("orig")
        (Except.ok ("1. q one a\n2. q two b\n3. q three c\n4. q four d\n5. q five e"))).length
        = 6 := by
  refine ⟨by decide, by decide, by decide, by decide⟩

/-- Helper: a successfully parsed line is longer than 3 characters. -/
theorem parseLine_some_length {line s : String} (h : parseLine line = some s) :
    3 < s.length := by
  unfold parseLine at h
  split at h
  · exact absurd h (by simp)
  · split at h
    · split at h
      · rename_i hcond
        injection h with h'
        subst h'
        exact hcond.2
      · exact absurd h (by simp)
    · exact absurd h (by simp)

/-- C8 amended: the bot-side expander returns at most 4 queries (at most
3 parsed variants, each longer than 3 characters, coming only from lines
the per-line parser accepts), and prepends the original query exactly
when it does not occur among the parsed variants — this insertion is the
only deduplication; the `multi_query_rag` variant behaves the same but
without the cap of 3. -/
theorem expander_structure :
    (∀ (orig resp : String), (generate_queries orig resp).length ≤ 4)
    ∧ (∀ (resp : String), (parse_queries resp).length ≤ 3)
    ∧ (∀ (orig resp : String), orig ∉ parse_queries resp →
        generate_queries orig resp = orig :: parse_queries resp)
    ∧ (∀ (resp s : String), s ∈ parse_queries resp → 3 < s.length)
    ∧ (∀ (resp s : String), s ∈ parse_queries resp →
        ∃ line ∈ splitLines (trimS resp), parseLine line = some s)
    ∧ (∀ (orig resp : String), orig ∉ mq_parse_queries resp →
        MultiQuery.generate_multiple_queries orig (Except.ok resp)
          = orig :: mq_parse_queries resp) := by
  have hp : ∀ (resp : String), (parse_queries resp).length ≤ 3 := by
    intro resp
    unfold parse_queries
    rw [List.length_take]
    exact min_le_left _ _
  refine ⟨?_, hp, ?_, ?_, ?_, ?_⟩
  · intro orig resp
    unfold generate_queries
    by_cases h : orig ∈ parse_queries resp
    · simp only [h, if_true]
      exact le_trans (hp resp) (by decide)
    · simp only [h, if_false, List.length_cons]
      have := hp resp
      omega
  · intro orig resp h
    unfold generate_queries
    simp [h]
  · intro resp s hs
    unfold parse_queries at hs
    have h2 := List.mem_of_mem_take hs
    rw [List.mem_filterMap] at h2
    obtain ⟨line, _, hl⟩ := h2
    exact parseLine_some_length hl
  · intro resp s hs
    unfold parse_queries at hs
    have h2 := List.mem_of_mem_take hs
    rw [List.mem_filterMap] at h2
    exact h2
  · intro orig resp h
    unfold MultiQuery.generate_multiple_queries
    simp [h]

/-- Witness for the amended C8 at concrete inputs. -/
theorem expander_structure_witness :
    generate_queries ("zzzz") ("1. aaaa") = "zzzz" :: parse_queries ("1. aaaa")
    ∧ MultiQuery.generate_multiple_queries ("zzzz") (Except.ok ("1. aaaa"))
        = "zzzz" :: mq_parse_queries ("1. aaaa")
    ∧ 3 < ("aaaa").length :=
  ⟨expander_structure.2.2.1 ("zzzz") ("1. aaaa") (by decide),
   expander_structure.2.2.2.2.2 ("zzzz") ("1. aaaa") (by decide),
   expander_structure.2.2.2.1 ("1. aaaa") ("aaaa") (by decide)⟩

/-- C10 counterexample: two distinct chunks agreeing on their first 100
characters, where the first encountered scores 0.3 (below the merge
floor): the later, higher-scoring one is retained and the first is
dropped — not "only the first one encountered is retained". -/
theorem dedup_first_not_retained_counterexample :
    dupA ≠ dupB
    ∧ take100 dupA.page_content = take100 dupB.page_content
    ∧ mergeDedup [(dupA, mkRat 3 10), (dupB, mkRat 9 10)] []
        = [(dupB, mkRat 9 10)] :=
  ⟨by decide, by decide, by decide⟩

/-- C10 amended: merge-time deduplication keys on the first 100
characters of chunk content (not full content identity), and among the
results sharing one such prefix exactly the first encountered whose
score exceeds the 0.4 merge floor is retained (independently of any
later, even higher-scoring, duplicate); duplicates preceded by a
floor-passing duplicate are always dropped.  Characterization: the
retained results with a given prefix are the first floor-passing input
with that prefix, when the prefix is unseen. -/
theorem dedup_prefix_characterization :
    ∀ (L : List (Doc × Rat)) (seen : List String) (h : String),
      (mergeDedup L seen).filter (fun x => take100 x.1.page_content == h) =
        if h ∈ seen then [] else
          (L.filter (fun x => take100 x.1.page_content == h
            && decide (x.2 > merge_floor))).take 1 := by
  intro L
  induction L with
  | nil =>
    intro seen h
    simp [mergeDedup]
  | cons x rest ih =>
    intro seen h
    obtain ⟨d, s⟩ := x
    by_cases hkeep : take100 d.page_content ∉ seen ∧ s > merge_floor
    · rw [show mergeDedup ((d, s) :: rest) seen
        = (d, s) :: mergeDedup rest (take100 d.page_content :: seen) by
          rw [mergeDedup, if_pos hkeep]]
      by_cases hh : take100 d.page_content = h
      · subst hh
        rw [List.filter_cons_of_pos (by simp)]
        rw [ih, if_pos (List.mem_cons_self _ _), if_neg hkeep.1]
        rw [List.filter_cons_of_pos (by simp [hkeep.2])]
        rfl
      · rw [List.filter_cons_of_neg (by simp [hh])]
        rw [ih]
        by_cases hseen : h ∈ seen
        · rw [if_pos (List.mem_cons_of_mem _ hseen), if_pos hseen]
        · rw [if_neg ?hc, if_neg hseen]
          case hc =>
            intro hmem
            rcases List.mem_cons.mp hmem with h1 | h2
            · exact hh h1.symm
            · exact hseen h2
          rw [List.filter_cons_of_neg (by simp [hh])]
    · rw [show mergeDedup ((d, s) :: rest) seen = mergeDedup rest seen by
        rw [mergeDedup, if_neg hkeep]]
      rw [ih]
      by_cases hseen : h ∈ seen
      · rw [if_pos hseen, if_pos hseen]
      · rw [if_neg hseen, if_neg hseen]
        by_cases hh : take100 d.page_content = h
        · subst hh
          have hs : ¬ s > merge_floor := by
            by_contra hs
            exact hkeep ⟨fun hmem => hseen hmem, hs⟩
          rw [List.filter_cons_of_neg (by simp [hs])]
        · rw [List.filter_cons_of_neg (by simp [hh])]

/-- Membership through stable insertion (triples). -/
theorem mem_insertDescQ {x y : Doc × Rat × String}
    {l : List (Doc × Rat × String)} (h : x ∈ MultiQuery.insertDescQ y l) :
    x = y ∨ x ∈ l := by
  induction l with
  | nil =>
    rw [MultiQuery.insertDescQ] at h
    rcases List.mem_singleton.mp h with h'
    exact Or.inl h'
  | cons z rest ih =>
    rw [MultiQuery.insertDescQ] at h
    split at h
    · rcases List.mem_cons.mp h with h' | h'
      · exact Or.inl h'
      · exact Or.inr h'
    · rcases List.mem_cons.mp h with h' | h'
      · exact Or.inr (List.mem_cons.mpr (Or.inl h'))
      · rcases ih h' with h'' | h''
        · exact Or.inl h''
        · exact Or.inr (List.mem_cons.mpr (Or.inr h''))

/-- Membership through the stable sort (triples). -/
theorem mem_sortScoresQ {x : Doc × Rat × String}
    {l : List (Doc × Rat × String)} (h : x ∈ MultiQuery.sortScoresQ l) :
    x ∈ l := by
  induction l with
  | nil => exact absurd h (by simp [MultiQuery.sortScoresQ])
  | cons z rest ih =>
    have h' : x ∈ MultiQuery.insertDescQ z (MultiQuery.sortScoresQ rest) := h
    rcases mem_insertDescQ h' with h'' | h''
    · exact List.mem_cons.mpr (Or.inl h'')
    · exact List.mem_cons.mpr (Or.inr (ih h''))

/-- Every result kept by the `multi_query_rag` merge loop passes the
merge floor. -/
theorem mergeDedupQ_score {x : Doc × Rat × String} :
    ∀ {l : List (Doc × Rat × String)} {seen : List String},
      x ∈ MultiQuery.mergeDedupQ l seen → x.2.1 > merge_floor := by
  intro l
  induction l with
  | nil =>
    intro seen h
    exact absurd h (by simp [MultiQuery.mergeDedupQ])
  | cons z rest ih =>
    intro seen h
    obtain ⟨d, s, q⟩ := z
    rw [MultiQuery.mergeDedupQ] at h
    split at h
    · rcases List.mem_cons.mp h with h' | h'
      · subst h'
        rename_i hkeep
        exact hkeep.2
      · exact ih h'
    · exact ih h

/-- C3 counterexample: in `multi_query_rag`, a chunk scoring 0.45 —
above the merge floor but at most the good-result floor — is retained
by `limited_results` and its content becomes the whole final-answer
context, so a score in (0.4, 0.5] is surfaced to the user. -/
theorem mq_low_score_chunk_surfaced_counterexample :
    MultiQuery.limited_results envMid ("q") 8 3
      = Except.ok [(docLong, mkRat 45 100, "q")]
    ∧ MultiQuery.main_context_text envMid ("q") 8 3
      = Except.ok (docLong.page_content)
    ∧ mkRat 45 100 > merge_floor
    ∧ ¬ mkRat 45 100 > good_floor :=
  ⟨rfl, rfl, by decide, by decide⟩

/-- C3 amended: in the telegram and discord pipelines every chunk used
for the final context and citations (`retained`) scores strictly above
the 0.5 good-result floor; `multi_query_rag`, by contrast, enforces only
the 0.4 merge floor on what it surfaces. -/
theorem good_results_floor_invariant :
    (∀ (env : Env) (q : String) (p : Bool) (x : Doc × Rat),
      x ∈ (Telegram.query_rag_system env q p).retained → x.2 > good_floor)
    ∧ (∀ (env : Env) (q : String) (u : Bool) (x : Doc × Rat),
      x ∈ (Discord.query_rag_system env q u).retained → x.2 > good_floor)
    ∧ (∀ (search : String → Nat → Except String (List (Doc × Rat)))
        (queries : List String) (k : Nat) (res : List (Doc × Rat × String))
        (x : Doc × Rat × String),
      MultiQuery.retrieve_for_queries search queries k = Except.ok res →
      x ∈ res → x.2.1 > merge_floor) := by
  refine ⟨?_, ?_, ?_⟩
  · intro env q p x hx
    unfold Telegram.query_rag_system at hx
    split at hx
    · exact absurd hx (by simp)
    · split at hx
      · split at hx
        · exact absurd hx (by simp)
        · split at hx
          · exact absurd hx (by simp)
          · split at hx
            · exact absurd hx (by simp)
            · split at hx
              · exact absurd hx (by simp)
              · split at hx
                · exact absurd hx (by simp)
                · split at hx
                  · exact absurd hx (by simp)
                  · have h2 := List.mem_of_mem_take hx
                    unfold Telegram.good_results at h2
                    rw [List.mem_filter] at h2
                    exact of_decide_eq_true h2.2
      · exact absurd hx (by simp)
  · intro env q u x hx
    unfold Discord.query_rag_system at hx
    split at hx
    · exact absurd hx (by simp)
    · split at hx
      · split at hx
        · exact absurd hx (by simp)
        · split at hx
          · exact absurd hx (by simp)
          · split at hx
            · exact absurd hx (by simp)
            · split at hx
              · exact absurd hx (by simp)
              · split at hx
                · exact absurd hx (by simp)
                · split at hx
                  · exact absurd hx (by simp)
                  · have h2 := List.mem_of_mem_take hx
                    unfold Discord.good_results at h2
                    rw [List.mem_filter] at h2
                    exact of_decide_eq_true h2.2
      · exact absurd hx (by simp)
  · intro search queries k res x hres hx
    unfold MultiQuery.retrieve_for_queries at hres
    split at hres
    · exact absurd hres (by simp)
    · injection hres with hres'
      subst hres'
      exact mergeDedupQ_score (mem_sortScoresQ hx)

/-- Witness for the amended C3: a concrete successful telegram run whose
retained chunk scores 0.7 > 0.5. -/
theorem good_results_floor_invariant_witness :
    (docLong, mkRat 7 10) ∈ (Telegram.query_rag_system envFull ("q") false).retained
    ∧ mkRat 7 10 > good_floor :=
  ⟨by decide,
   good_results_floor_invariant.1 envFull ("q") false (docLong, mkRat 7 10)
    (by decide)⟩

/-- Helper: the telegram answer assembly returns the uncertain
escalation whenever the model's answer contains the sentinel. -/
theorem telegram_compose_uncertain (p : Bool) (conf resp : String)
    (results : List (Doc × Rat)) (h : containsStr resp ("UNCERTAIN") = true) :
    Telegram.compose p conf resp results = Telegram.uncertain_msg p := by
  unfold Telegram.compose
  rw [if_pos h]

/-- Helper: telegram `PARTIAL:` handling — the prefix is removed
(every occurrence, then stripped) and the banner is rendered exactly
under MEDIUM confidence. -/
theorem telegram_compose_partial (p : Bool) (conf resp : String)
    (results : List (Doc × Rat)) (h1 : containsStr resp ("UNCERTAIN") = false)
    (h2 : startsWithS resp ("PARTIAL:") = true) :
    Telegram.compose p conf resp results =
      (if conf = "MEDIUM" then Telegram.partial_banner else "")
        ++ trimS (pyReplace resp ("PARTIAL:") (""))
        ++ ("\n\n**📚 Refer these helpful docs for more details**:\n")
        ++ Telegram.sources_text results
        ++ (if conf = "MEDIUM" then Telegram.medium_indicator p else "") := by
  unfold Telegram.compose
  rw [if_neg (by simp [h1])]
  simp only [h2, if_true, true_and]

/-- Helper: discord uncertain handling. -/
theorem discord_compose_uncertain (q conf resp : String)
    (results : List (Doc × Rat)) (h : containsStr resp ("UNCERTAIN") = true) :
    Discord.compose true q conf resp results = Discord.uncertain_msg q := by
  unfold Discord.compose
  rw [if_pos h]

/-- Helper: discord `PARTIAL:` handling. -/
theorem discord_compose_partial (q conf resp : String)
    (results : List (Doc × Rat)) (h1 : containsStr resp ("UNCERTAIN") = false)
    (h2 : startsWithS resp ("PARTIAL:") = true) :
    Discord.compose true q conf resp results =
      (if conf = "MEDIUM" then Discord.partial_banner else "")
        ++ trimS (pyReplace resp ("PARTIAL:") (""))
        ++ ("\n\n**Refer documentation for more details**\n")
        ++ Discord.sources_text results
        ++ (if conf = "MEDIUM" then Discord.medium_indicator else "") := by
  unfold Discord.compose
  rw [if_neg (by simp [h1])]
  simp only [h2, if_true, true_and]

/-- C9 counterexample: a concrete run in which the model's answer begins
with `PARTIAL:` but confidence is HIGH — the prefix is stripped yet no
partial-answer banner is rendered, contradicting the unconditional
banner of the claim. -/
theorem partial_banner_absent_counterexample :
    envFull.genAnswer (Telegram.context_text [(docLong, mkRat 7 10)]) ("q")
      = Except.ok ("PARTIAL: Open the judging tab.")
    ∧ startsWithS ("PARTIAL: Open the judging tab.") ("PARTIAL:") = true
    ∧ (Telegram.query_rag_system envFull ("q") false).answer
      = "Open the judging tab.\n\n**📚 Refer these helpful docs for more details**:\n• [How To Apply](https://guide.devfolio.co/how-to-apply)"
    ∧ startsWithS (Telegram.query_rag_system envFull ("q") false).answer
        (Telegram.partial_banner) = false :=
  ⟨rfl, by decide, by decide, by decide⟩

/-- C9 amended: an answer containing the `UNCERTAIN` sentinel always
yields the uncertain escalation (no answer body, no sources); an answer
beginning with `PARTIAL:` has every `PARTIAL:` occurrence removed and
the remainder stripped, but the partial-answer banner is rendered only
when the confidence classification was MEDIUM (under HIGH confidence no
banner appears); additionally, in the telegram pipeline an `UNCERTAIN`
answer makes the whole run return the uncertain escalation. -/
theorem uncertain_and_partial_handling :
    (∀ (p : Bool) (conf resp : String) (results : List (Doc × Rat)),
      containsStr resp ("UNCERTAIN") = true →
      Telegram.compose p conf resp results = Telegram.uncertain_msg p)
    ∧ (∀ (p : Bool) (conf resp : String) (results : List (Doc × Rat)),
      containsStr resp ("UNCERTAIN") = false →
      startsWithS resp ("PARTIAL:") = true →
      Telegram.compose p conf resp results =
        (if conf = "MEDIUM" then Telegram.partial_banner else "")
          ++ trimS (pyReplace resp ("PARTIAL:") (""))
          ++ ("\n\n**📚 Refer these helpful docs for more details**:\n")
          ++ Telegram.sources_text results
          ++ (if conf = "MEDIUM" then Telegram.medium_indicator p else ""))
    ∧ (∀ (q conf resp : String) (results : List (Doc × Rat)),
      containsStr resp ("UNCERTAIN") = true →
      Discord.compose true q conf resp results = Discord.uncertain_msg q)
    ∧ (∀ (q conf resp : String) (results : List (Doc × Rat)),
      containsStr resp ("UNCERTAIN") = false →
      startsWithS resp ("PARTIAL:") = true →
      Discord.compose true q conf resp results =
        (if conf = "MEDIUM" then Discord.partial_banner else "")
          ++ trimS (pyReplace resp ("PARTIAL:") (""))
          ++ ("\n\n**Refer documentation for more details**\n")
          ++ Discord.sources_text results
          ++ (if conf = "MEDIUM" then Discord.medium_indicator else ""))
    ∧ (∀ (env : Env) (q : String) (p : Bool) (init : List (Doc × Rat))
        (resp : String) (flat : List (Doc × Rat)) (resp_text : String),
      env.search q 6 = Except.ok init →
      init.any (fun r => decide (r.2 > high_confidence_threshold)) = true →
      env.genQueries q = Except.ok resp →
      searchAll env.search 4 (generate_queries q resp) = Except.ok flat →
      (Telegram.good_results flat).isEmpty = false →
      ¬ (Telegram.context_text ((Telegram.good_results flat).take 8)).length <
        Telegram.MIN_CONTEXT_LENGTH →
      ¬ evaluate_confidence (env.confEval q
        (Telegram.context_text ((Telegram.good_results flat).take 8))) = "LOW" →
      env.genAnswer (Telegram.context_text ((Telegram.good_results flat).take 8)) q
        = Except.ok resp_text →
      containsStr resp_text ("UNCERTAIN") = true →
      (Telegram.query_rag_system env q p).answer = Telegram.uncertain_msg p) := by
  refine ⟨telegram_compose_uncertain, telegram_compose_partial,
    discord_compose_uncertain, discord_compose_partial, ?_⟩
  intro env q p init resp flat resp_text h1 h2 h3 h4 h5 h6 h7 h8 h9
  unfold Telegram.query_rag_system
  rw [h1]
  simp only [h2, if_true, h3, h4, h5, Bool.false_eq_true, if_false, h6, h7, h8]
  exact telegram_compose_uncertain p _ resp_text _ h9

/-- Witness for the amended C9 at concrete inputs: an `UNCERTAIN` answer
escalates, and a MEDIUM-confidence `PARTIAL:` answer renders the
banner. -/
theorem uncertain_and_partial_handling_witness :
    Telegram.compose true ("HIGH") ("UNCERTAIN") [] = Telegram.uncertain_msg true
    ∧ Telegram.compose true ("MEDIUM") ("PARTIAL: abcd") [] =
        Telegram.partial_banner ++ trimS (pyReplace ("PARTIAL: abcd") ("PARTIAL:") (""))
          ++ ("\n\n**📚 Refer these helpful docs for more details**:\n")
          ++ Telegram.sources_text [] ++ Telegram.medium_indicator true :=
  ⟨uncertain_and_partial_handling.1 true ("HIGH") ("UNCERTAIN") [] (by decide),
   by
    have h := uncertain_and_partial_handling.2.1 true ("MEDIUM") ("PARTIAL: abcd") []
      (by decide) (by decide)
    simpa using h⟩

/-- The replace worker fixes the empty list at every fuel. -/
theorem replaceAllGo_nil (pat repl : List Char) (n : Nat) :
    replaceAllGo pat repl n [] = [] := by
  cases n <;> rfl

/-- When the pattern does not occur, the replace worker is the identity,
for every fuel. -/
theorem replaceAllGo_not_occurs (pat repl : List Char) :
    ∀ (n : Nat) (l : List Char), occursIn pat l = false →
      replaceAllGo pat repl n l = l := by
  intro n
  induction n with
  | zero =>
    intro l _
    cases l <;> rfl
  | succ m ih =>
    intro l h
    cases l with
    | nil => rfl
    | cons c rest =>
      rw [occursIn, Bool.or_eq_false_iff] at h
      simp only [replaceAllGo]
      rw [if_neg (by simp [h.1]), ih rest h.2]

/-- A leading occurrence of the pattern is replaced and skipped. -/
theorem replaceAllGo_head (pat repl rest : List Char) (n : Nat) (h : pat ≠ []) :
    replaceAllGo pat repl (n + 1) (pat ++ rest)
      = repl ++ replaceAllGo pat repl n rest := by
  cases pat with
  | nil => exact absurd rfl h
  | cons p ps =>
    show replaceAllGo (p :: ps) repl (n + 1) (p :: (ps ++ rest)) = _
    simp only [replaceAllGo]
    rw [if_pos (show (p :: ps).isPrefixOf (p :: (ps ++ rest)) = true from
      List.isPrefixOf_iff_prefix.mpr (List.prefix_append (p :: ps) rest))]
    have hd : (ps ++ rest).drop ((p :: ps).length - 1) = rest := by
      rw [List.length_cons, Nat.add_sub_cancel, List.drop_left]
    rw [hd]

/-- Fuel-flexible version of `replaceAllGo_head`. -/
theorem replaceAllGo_head' (pat repl rest : List Char) (n : Nat) (h : pat ≠ [])
    (hn : 1 ≤ n) : replaceAllGo pat repl n (pat ++ rest)
      = repl ++ replaceAllGo pat repl (n - 1) rest := by
  obtain ⟨m, rfl⟩ : ∃ m, n = m + 1 := ⟨n - 1, by omega⟩
  simpa using replaceAllGo_head pat repl rest m h

/-- When the pattern occurs only as the trailing suffix, replacing it by
the empty list removes exactly that suffix. -/
theorem replaceAllGo_end (pat : List Char) (hne : pat ≠ []) :
    ∀ (xs : List Char) (n : Nat), xs.length ≤ n →
      (∀ i, i < xs.length → pat.isPrefixOf ((xs ++ pat).drop i) = false) →
      replaceAllGo pat [] (n + 1) (xs ++ pat) = xs := by
  intro xs
  induction xs with
  | nil =>
    intro n _ _
    have h := replaceAllGo_head pat [] [] n hne
    simpa [replaceAllGo_nil] using h
  | cons c xs' ih =>
    intro n hlen hno
    have h0 : pat.isPrefixOf (c :: (xs' ++ pat)) = false := by
      have := hno 0 (by simp)
      simpa using this
    cases n with
    | zero => simp at hlen
    | succ m =>
      have hlen' : xs'.length ≤ m := by
        simp only [List.length_cons] at hlen
        omega
      show replaceAllGo pat [] (m + 1 + 1) (c :: (xs' ++ pat)) = c :: xs'
      simp only [replaceAllGo]
      rw [if_neg (by simp [h0])]
      rw [ih m hlen' ?_]
      intro i hi
      have := hno (i + 1) (by simp only [List.length_cons]; omega)
      simpa [List.drop_succ_cons] using this

/-- A list occurs in anything that ends with it. -/
theorem occursIn_append_self (pat : List Char) :
    ∀ (t : List Char), occursIn pat (t ++ pat) = true := by
  intro t
  induction t with
  | nil =>
    cases pat with
    | nil => rfl
    | cons p ps =>
      show occursIn (p :: ps) (p :: ps) = true
      simp [occursIn, List.isPrefixOf_iff_prefix]
  | cons c t ih =>
    show occursIn pat (c :: (t ++ pat)) = true
    simp only [occursIn, ih, Bool.or_true]

/-- A non-occurring list is in particular not a suffix. -/
theorem isSuffixOf_eq_false_of_not_occurs {pat l : List Char}
    (h : occursIn pat l = false) : pat.isSuffixOf l = false := by
  by_contra hb
  rw [Bool.not_eq_false] at hb
  obtain ⟨t, ht⟩ := List.isSuffixOf_iff_suffix.mp hb
  rw [← ht, occursIn_append_self] at h
  exact absurd h (by decide)

/-- `.mdx` is never a suffix of a string ending in `.md` (the last
characters differ). -/
theorem mdx_not_suffix_of_md (xs : List Char) :
    ((".mdx").data).isSuffixOf (xs ++ ((".md").data)) = false := by
  by_contra hb
  rw [Bool.not_eq_false] at hb
  obtain ⟨t, ht⟩ := List.isSuffixOf_iff_suffix.mp hb
  have h1 : (xs ++ ((".md").data)).getLast? = some 'd' := by
    rw [List.getLast?_append]
    rfl
  rw [← ht, List.getLast?_append] at h1
  have h2 : (some 'x' : Option Char) = some 'd' := h1
  exact absurd h2 (by decide)

/-- `.md` is a suffix of anything ending in it. -/
theorem md_suffix (xs : List Char) :
    ((".md").data).isSuffixOf (xs ++ ((".md").data)) = true :=
  List.isSuffixOf_iff_suffix.mpr ⟨xs, rfl⟩

/-- The last-segment fold over slash-free input appends it whole. -/
theorem foldl_seg_no_slash (l : List Char) (h : ('/' : Char) ∉ l) :
    ∀ (a : List Char),
      l.foldl (fun acc c => if c = '/' then [] else acc ++ [c]) a = a ++ l := by
  induction l with
  | nil =>
    intro a
    simp
  | cons c rest ih =>
    intro a
    rw [List.mem_cons, not_or] at h
    rw [List.foldl_cons, if_neg (Ne.symm h.1), ih h.2]
    simp

/-- The last segment of `"data/" ++ rest` for slash-free `rest`. -/
theorem lastSegL_data_slash (rest : List Char) (h : ('/' : Char) ∉ rest) :
    lastSegL ((("data/").data) ++ rest) = rest := by
  unfold lastSegL
  rw [List.foldl_append]
  have h0 : ("data/").data.foldl
      (fun acc c => if c = '/' then [] else acc ++ [c]) [] = [] := by decide
  rw [h0, foldl_seg_no_slash rest h []]
  simp

/-- Python `replace` removes a leading pattern occurrence entirely when
the pattern does not occur in the remainder. -/
theorem pyReplace_strip_pre (pat rest : String) (hne : pat.data ≠ [])
    (h : occursIn pat.data rest.data = false) :
    pyReplace (pat ++ rest) pat ("") = rest := by
  unfold pyReplace
  rw [String.data_append, List.length_append]
  rw [replaceAllGo_head' pat.data (("" : String).data) rest.data _ hne (by
    have hp : 0 < pat.data.length := List.length_pos.mpr hne
    omega)]
  rw [replaceAllGo_not_occurs _ _ _ _ h]
  rfl

/-- Python `replace` is the identity when the pattern does not occur. -/
theorem pyReplace_no_occurs (s pat : String)
    (h : occursIn pat.data s.data = false) : pyReplace s pat ("") = s := by
  unfold pyReplace
  rw [replaceAllGo_not_occurs _ _ _ _ h]

/-- Python `replace` removes a trailing pattern occurrence exactly when
the pattern occurs nowhere earlier. -/
theorem pyReplace_strip_suf (stem pat : String) (hne : pat.data ≠ [])
    (hno : ∀ i, i < stem.data.length →
      (pat.data).isPrefixOf ((stem.data ++ pat.data).drop i) = false) :
    pyReplace (stem ++ pat) pat ("") = stem := by
  unfold pyReplace
  rw [show ("" : String).data = [] from rfl]
  rw [String.data_append, List.length_append]
  have h1 : 0 < pat.data.length := List.length_pos.mpr hne
  obtain ⟨m, hm⟩ : ∃ m, stem.data.length + pat.data.length = m + 1 :=
    ⟨stem.data.length + pat.data.length - 1, by omega⟩
  rw [hm, replaceAllGo_end pat.data hne stem.data m (by omega) hno]

/-- C5 counterexample: the code removes every occurrence of `"data/"`,
`".mdx"` and `".md"` (Python `replace`), so on a path where `"data/"`
occurs but not as a leading prefix the computed URL differs from the
spec's strip-prefix/strip-suffix composition. -/
theorem citation_url_not_strip_counterexample :
    source_url ("xdata/foo.md") = base_url ++ ("xfoo")
    ∧ spec_source_url ("xdata/foo.md") = base_url ++ ("xdata/foo")
    ∧ source_url ("xdata/foo.md") ≠ spec_source_url ("xdata/foo.md") :=
  ⟨by decide, by decide, by decide⟩

/-- C5 amended: the citation URL and title are pure functions of
`source_path` computed with Python `replace`-all; they agree with the
spec's `strip_prefix("data/") ∘ strip_suffix(".md")` composition (and
the hyphens-to-spaces title-cased file name) whenever `"data/"` occurs
only as the leading prefix, `".md"` only as the trailing suffix,
`".mdx"` not at all, and the stem is slash-free. -/
theorem citation_url_strip_agreement (stem : String)
    (hslash : ('/' : Char) ∉ stem.data)
    (h1 : occursIn (("data/").data) (stem.data ++ ((".md").data)) = false)
    (h2 : occursIn ((".mdx").data) (stem.data ++ ((".md").data)) = false)
    (h3 : ∀ i, i < stem.data.length →
      ((".md").data).isPrefixOf ((stem.data ++ ((".md").data)).drop i) = false) :
    source_url (("data/") ++ (stem ++ (".md"))) = base_url ++ stem
    ∧ spec_source_url (("data/") ++ (stem ++ (".md"))) = base_url ++ stem
    ∧ readable_title (("data/") ++ (stem ++ (".md")))
        = pyTitle (pyReplace stem ("-") (" "))
    ∧ spec_readable_title (("data/") ++ (stem ++ (".md")))
        = pyTitle (pyReplace stem ("-") (" ")) := by
  have hmd : (stem ++ (".md")).data = stem.data ++ ((".md").data) :=
    String.data_append _ _
  have hA : pyReplace (("data/") ++ (stem ++ (".md"))) ("data/") ("")
      = stem ++ (".md") := by
    apply pyReplace_strip_pre
    · decide
    · rw [hmd]
      exact h1
  have hB : pyReplace (stem ++ (".md")) (".mdx") ("") = stem ++ (".md") := by
    apply pyReplace_no_occurs
    rw [hmd]
    exact h2
  have hC : pyReplace (stem ++ (".md")) (".md") ("") = stem := by
    apply pyReplace_strip_suf
    · decide
    · exact h3
  have hpd : (("data/") ++ (stem ++ (".md"))).data
      = ("data/").data ++ (stem.data ++ ((".md").data)) := by
    rw [String.data_append, hmd]
  have hnos : ('/' : Char) ∉ stem.data ++ ((".md").data) := by
    intro hmem
    rcases List.mem_append.mp hmem with hx | hx
    · exact hslash hx
    · exact absurd hx (by decide)
  have hseg : lastSegment (("data/") ++ (stem ++ (".md"))) = stem ++ (".md") := by
    unfold lastSegment
    rw [hpd, lastSegL_data_slash _ hnos, ← hmd]
  have hmdxsuf : stripSufS (".mdx") (stem ++ (".md")) = stem ++ (".md") := by
    unfold stripSufS
    rw [if_neg ?hcond]
    case hcond =>
      rw [hmd, mdx_not_suffix_of_md stem.data]
      simp
  have hmdsuf : stripSufS (".md") (stem ++ (".md")) = stem := by
    unfold stripSufS
    rw [if_pos ?hcond]
    case hcond =>
      rw [hmd]
      exact md_suffix stem.data
    rw [hmd, List.length_append]
    have harith : stem.data.length + ((".md").data).length - ((".md").data).length
        = stem.data.length := by omega
    rw [harith, List.take_left]
  refine ⟨?_, ?_, ?_, ?_⟩
  · unfold source_url
    rw [hA, hB, hC]
  · unfold spec_source_url
    have hpre : stripPreS ("data/") (("data/") ++ (stem ++ (".md")))
        = stem ++ (".md") := by
      unfold stripPreS
      rw [if_pos ?hcond]
      case hcond =>
        rw [hpd]
        exact List.isPrefixOf_iff_prefix.mpr (List.prefix_append _ _)
      rw [hpd, List.drop_left, ← hmd]
    rw [hpre, hmdxsuf, hmdsuf]
  · unfold readable_title
    rw [hseg, hB, hC]
  · unfold spec_readable_title
    rw [hseg, hmdxsuf, hmdsuf]

/-- Witness for the amended C5 at the stem `"how-to-apply"`. -/
theorem citation_url_strip_agreement_witness :
    source_url (("data/") ++ (("how-to-apply") ++ (".md")))
      = base_url ++ ("how-to-apply")
    ∧ spec_source_url (("data/") ++ (("how-to-apply") ++ (".md")))
      = base_url ++ ("how-to-apply")
    ∧ readable_title (("data/") ++ (("how-to-apply") ++ (".md")))
      = pyTitle (pyReplace ("how-to-apply") ("-") (" ")) :=
  ⟨(citation_url_strip_agreement ("how-to-apply") (by decide) (by decide)
      (by decide) (by decide)).1,
   (citation_url_strip_agreement ("how-to-apply") (by decide) (by decide)
      (by decide) (by decide)).2.1,
   (citation_url_strip_agreement ("how-to-apply") (by decide) (by decide)
      (by decide) (by decide)).2.2.1⟩
